import Mathlib

/-!
Verification of the execution-to-proof binding layer of this repository.

Two source files are embedded:
* `src/distaff/src/lib.rs` — the `execute` entry point and its helper
  `get_last_state` (namespace `Distaff` below);
* `src/prover/src/lib.rs` — the `prove` entry point, `ExecutionProver` and its
  helpers `are_inputs_valid`, `are_outputs_valid`, `get_pub_inputs`
  (namespace `MidenProver` below).

External crates (`air`, `processor`, the STARK prover framework) are not part
of the repository; where one of their definitions is needed it is modelled
from the spec and marked `Modelled from the spec:` in its doc comment.
External engine calls (`processor::execute`, the proof engine) are passed in
as function parameters, so theorems can quantify over every possible engine
behaviour; "the engine is never invoked" is expressed as the result being
independent of the engine parameter.

Rust panics (from `assert!`, `debug_assert!`, slice indexing, `unwrap`,
integer-subtraction underflow) are modelled as explicit `panic` results so
that they stay distinguishable from recoverable `Err` values returned to the
caller. Conditional compilation is modelled by explicit `Bool` parameters:
`stdFeature` for `#[cfg(feature = "std")]` code and `dbgAssertions` for
`debug_assert!` (compiled out in release builds).
-/

namespace Distaff

/-- Field elements of the 128-bit base field are modelled by their canonical
integer representative; the binding layer only copies and compares them, it
never performs field arithmetic. -/
abbrev BaseElement := Nat

/-- BaseElement::as_int — the canonical integer value of a field element. -/
def as_int (v : BaseElement) : Nat := v

/-- Modelled from the spec: protocol constant `MAX_OUTPUTS` lives in the
external `air` crate ("requested output count ≤ MAX_OUTPUTS"); its concrete
value does not affect any claim, which only compare against it. -/
def MAX_OUTPUTS : Nat := 8

/-- Modelled from the spec: protocol constant `MIN_TRACE_LENGTH` lives in the
external `air` crate ("trace.length() ≥ MIN_TRACE_LENGTH"); its concrete
value does not affect any claim, which only compare against it. -/
def MIN_TRACE_LENGTH : Nat := 16

/-- Modelled from the spec: number of hash-accumulator columns that hold the
program digest; two 128-bit elements serialize to the 32-byte digest. -/
def PROGRAM_DIGEST_SIZE : Nat := 2

/-- Modelled from the spec: `Program` is an immutable compiled artifact whose
only attribute used here is its content-addressed 32-byte hash digest. -/
structure Program where
  hash : List Nat
  deriving DecidableEq

/-- Modelled from the spec: `ProgramInputs` holds the ordered public stack
inputs together with the secret advice tapes. -/
structure ProgramInputs where
  public_inputs : List BaseElement
  secret_a : List BaseElement
  secret_b : List BaseElement
  deriving DecidableEq

/-- Modelled from the spec: `ExecutionTrace` (external prover crate) — a
table of field-element rows plus the shape descriptor from which the layout
is derived (`width`, and the context/loop depths recorded in its info). -/
structure ExecutionTrace where
  width : Nat
  ctx_depth_info : Nat
  loop_depth_info : Nat
  rows : List (List BaseElement)
  deriving DecidableEq

/-- ExecutionTrace::length — number of steps (rows). -/
def ExecutionTrace.length (t : ExecutionTrace) : Nat := t.rows.length

/-- ExecutionTrace::read_row_into — materialize row `i`. -/
def ExecutionTrace.read_row (t : ExecutionTrace) (i : Nat) : List BaseElement :=
  t.rows.getD i []

/-- TraceMetadata — the three depths describing how a flat row splits into
logical sub-registers. -/
structure TraceMetadata where
  ctx_depth : Nat
  loop_depth : Nat
  stack_depth : Nat
  deriving DecidableEq

/-- Modelled from the spec: `TraceMetadata::from_trace_info` (external `air`
crate) — a pure function of the trace's shape: the context and loop depths
come from the trace's own descriptor and the user-stack depth is the
remaining width after the op-counter column, the digest columns and the
context/loop columns. -/
def TraceMetadata.from_trace_info (t : ExecutionTrace) : TraceMetadata :=
  ⟨t.ctx_depth_info, t.loop_depth_info,
    t.width - (1 + PROGRAM_DIGEST_SIZE + t.ctx_depth_info + t.loop_depth_info)⟩

/-- TraceState — the decoded view of a single row: operation counter,
program-hash accumulator, context stack, loop stack and user stack. -/
structure TraceState where
  op_counter : BaseElement
  program_hash : List BaseElement
  ctx_stack : List BaseElement
  loop_stack : List BaseElement
  user_stack : List BaseElement
  deriving DecidableEq

/-- Modelled from the spec: `TraceState::from_slice` (external `air` crate) —
a pure reinterpretation of a flat row as named slices, performing no
validation. The row is split, in order, into the op-counter column, the
digest columns, `ctx_depth` context columns, `loop_depth` loop columns and
`stack_depth` user-stack columns. -/
def TraceState.from_slice (ctx_depth loop_depth stack_depth : Nat)
    (row : List BaseElement) : TraceState :=
  ⟨row.getD 0 0,
    (row.drop 1).take PROGRAM_DIGEST_SIZE,
    (row.drop (1 + PROGRAM_DIGEST_SIZE)).take ctx_depth,
    (row.drop (1 + PROGRAM_DIGEST_SIZE + ctx_depth)).take loop_depth,
    (row.drop (1 + PROGRAM_DIGEST_SIZE + ctx_depth + loop_depth)).take stack_depth⟩

/-- Little-endian serialization of one 128-bit field element into 16 bytes
(`Serializable::to_bytes`, per element). -/
def eltToBytes (v : BaseElement) : List Nat :=
  (List.range 16).map (fun i => v / 2 ^ (8 * i) % 256)

/-- Serialization of a slice of field elements into bytes
(`Serializable::to_bytes` on the program-hash slice). -/
def to_bytes (d : List BaseElement) : List Nat := d.flatMap eltToBytes

/-- Modelled from the spec: `PublicInputs` (external `air` crate) — the bound
statement, holding exactly the program hash, the public input values and the
claimed output values. -/
structure PublicInputs where
  program_hash : List Nat
  stack_inputs : List Nat
  outputs : List Nat
  deriving DecidableEq

/-- PublicInputs::new. -/
def PublicInputs.new (h i o : List Nat) : PublicInputs := ⟨h, i, o⟩

/-- Modelled from the spec: `ProofOptions` — immutable proof-generation
configuration, opaque to the binding layer. -/
structure ProofOptions where
  cfg : Nat
  deriving DecidableEq

/-- The distinct panic sites of `execute` / `get_last_state`; a panic
terminates the process and is not a value returned to the caller. -/
inductive PanicKind where
  | outputCountExceeded
  | emptyTrace
  | stackSliceTooShort
  | traceTooShort
  | hashBytesLength
  | programHashMismatch
  deriving DecidableEq

/-- Outcome of a call to `execute`: a returned `Ok((outputs, proof))`, a
returned `Err(e)` propagated from the proof engine, or a process-terminating
panic. -/
inductive ExecResult (E P : Type) where
  | ok : List Nat → P → ExecResult E P
  | err : E → ExecResult E P
  | panic : PanicKind → ExecResult E P
  deriving DecidableEq

/-- True exactly on the `ok` outcome. -/
def ExecResult.isOk {E P : Type} : ExecResult E P → Bool
  | .ok _ _ => true
  | _ => false

/-- True exactly on the recoverable `err` outcome. -/
def ExecResult.isErr {E P : Type} : ExecResult E P → Bool
  | .err _ => true
  | _ => false

/-- `get_last_state` from `src/distaff/src/lib.rs`: reads row
`trace.length() - 1` and decodes it with the layout derived from the trace's
own shape. The source computes `trace.length() - 1` on a `usize` with no
emptiness check; on an empty trace that subtraction (and the subsequent row
read) can only panic, which is modelled as `none`. -/
def get_last_state (trace : ExecutionTrace) : Option TraceState :=
  if trace.length = 0 then none
  else
    let last_step := trace.length - 1
    let meta := TraceMetadata.from_trace_info trace
    let last_row := trace.read_row last_step
    some (TraceState.from_slice meta.ctx_depth meta.loop_depth meta.stack_depth last_row)

/-- `execute` from `src/distaff/src/lib.rs`. The external execution engine
(`processor::execute`) and proof engine (`prover::prove::<ProcessorAir>`) are
parameters; `stdFeature` reflects `#[cfg(feature = "std")]`, which guards the
program-hash assertion. Each `assert!`, the output slice indexing and the
`try_into().unwrap()` on the digest bytes are modelled as panics. -/
def execute {E P : Type}
    (processorExecute : Program → ProgramInputs → ExecutionTrace)
    (proverProve : ExecutionTrace → PublicInputs → ProofOptions → Except E P)
    (stdFeature : Bool)
    (program : Program) (inputs : ProgramInputs) (num_outputs : Nat)
    (options : ProofOptions) : ExecResult E P :=
  if MAX_OUTPUTS < num_outputs then .panic .outputCountExceeded
  else
    let trace := processorExecute program inputs
    match get_last_state trace with
    | none => .panic .emptyTrace
    | some last_state =>
      if last_state.user_stack.length < num_outputs then .panic .stackSliceTooShort
      else
        let outputs := (last_state.user_stack.take num_outputs).map as_int
        if as_int last_state.op_counter % 2 ^ 64 < MIN_TRACE_LENGTH then
          .panic .traceTooShort
        else
          let program_hash := to_bytes last_state.program_hash
          if program_hash.length ≠ 32 then .panic .hashBytesLength
          else if stdFeature ∧ program.hash ≠ program_hash then
            .panic .programHashMismatch
          else
            let pubInputValues := inputs.public_inputs.map as_int
            let pub_inputs := PublicInputs.new program_hash pubInputValues outputs
            match proverProve trace pub_inputs options with
            | .error e => .err e
            | .ok proof => .ok outputs proof

end Distaff

namespace MidenProver

/-- Field elements of the 64-bit base field, modelled by their canonical
integer representative; this layer only compares and copies them. -/
abbrev Felt := Nat

/-- Modelled from the spec: a hash digest (one word of field elements). -/
abbrev Digest := List Felt

/-- StackInputs — the caller's declared initial visible stack. -/
structure StackInputs where
  values : List Felt
  deriving DecidableEq

/-- Modelled from the spec: `ProgramOutputs` — the claimed top-of-stack
values at termination (`stack_top()`). -/
structure ProgramOutputs where
  stack_top : List Felt
  deriving DecidableEq

/-- Modelled from the spec: `ExecutionTrace` (external processor crate) as
consumed by this layer — it exposes its first-row stack state, last-row
stack state, the program hash accumulated during execution, and the program
outputs recorded at termination. -/
structure ExecutionTrace where
  init_stack_state : List Felt
  last_stack_state : List Felt
  program_hash : Digest
  program_outputs : ProgramOutputs
  deriving DecidableEq

/-- Modelled from the spec: `PublicInputs` (external `air` crate) — exactly
the program hash, the declared stack inputs and the claimed outputs. -/
structure PublicInputs where
  program_hash : Digest
  stack_inputs : StackInputs
  outputs : ProgramOutputs
  deriving DecidableEq

/-- PublicInputs::new. -/
def PublicInputs.new (h : Digest) (i : StackInputs) (o : ProgramOutputs) :
    PublicInputs := ⟨h, i, o⟩

/-- Modelled from the spec: `ProofOptions` — immutable configuration. -/
structure ProofOptions where
  cfg : Nat
  deriving DecidableEq

/-- Modelled from the spec: `Program` as consumed here — `prove` only passes
it through to the execution engine, so it is opaque to this layer. -/
structure Program where
  id : Nat
  deriving DecidableEq

/-- Modelled from the spec: `ProgramInputs` — the secret advice inputs
handed to the execution engine. -/
structure ProgramInputs where
  advice : List Felt
  deriving DecidableEq

/-- ExecutionError of the processor crate; `E` is the proof-engine error
type wrapped by the `ProverError` variant (`map_err(ExecutionError::ProverError)`).
The remaining executor failure modes are opaque to this layer and modelled
by an indexed variant. -/
inductive ExecutionError (E : Type) where
  | ProverError : E → ExecutionError E
  | execFailure : Nat → ExecutionError E
  deriving DecidableEq

/-- The two `debug_assert!` sites of `get_pub_inputs`; firing one terminates
the process (debug builds only). -/
inductive MPanic where
  | inputsMismatch
  | outputsMismatch
  deriving DecidableEq

/-- ExecutionProver — holds the proof options, the declared stack inputs and
the claimed program outputs. -/
structure ExecutionProver where
  options : ProofOptions
  stack_inputs : StackInputs
  outputs : ProgramOutputs
  deriving DecidableEq

/-- ExecutionProver::new. -/
def ExecutionProver.new (options : ProofOptions) (stack_inputs : StackInputs)
    (outputs : ProgramOutputs) : ExecutionProver :=
  ⟨options, stack_inputs, outputs⟩

/-- `are_inputs_valid` from `src/prover/src/lib.rs`: zips the declared stack
inputs with the trace's initial stack state and returns false on the first
disagreement; elements beyond the shorter sequence are never compared. -/
def ExecutionProver.are_inputs_valid (p : ExecutionProver)
    (trace : ExecutionTrace) : Bool :=
  (p.stack_inputs.values.zip trace.init_stack_state).all fun ab => ab.1 == ab.2

/-- `are_outputs_valid` from `src/prover/src/lib.rs`: zips the claimed
outputs' stack top with the trace's last stack state and returns false on
the first disagreement; elements beyond the shorter sequence are never
compared. -/
def ExecutionProver.are_outputs_valid (p : ExecutionProver)
    (trace : ExecutionTrace) : Bool :=
  (p.outputs.stack_top.zip trace.last_stack_state).all fun ab => ab.1 == ab.2

/-- `get_pub_inputs` from `src/prover/src/lib.rs`: two `debug_assert!`
checks (modelled by the `dbgAssertions` flag: they are compiled out in
release builds), then the public inputs are built from the trace's program
hash, the declared stack inputs and the claimed outputs. A fired assertion
is a panic, modelled as `Except.error`. -/
def ExecutionProver.get_pub_inputs (dbgAssertions : Bool) (p : ExecutionProver)
    (trace : ExecutionTrace) : Except MPanic PublicInputs :=
  if dbgAssertions ∧ ¬ p.are_inputs_valid trace then .error .inputsMismatch
  else if dbgAssertions ∧ ¬ p.are_outputs_valid trace then .error .outputsMismatch
  else .ok (PublicInputs.new trace.program_hash p.stack_inputs p.outputs)

/-- Outcome of the framework-level `Prover::prove` call: proof, engine
error, or panic escaping `get_pub_inputs`. -/
inductive FrameworkResult (E P : Type) where
  | ok : P → FrameworkResult E P
  | err : E → FrameworkResult E P
  | panic : MPanic → FrameworkResult E P
  deriving DecidableEq

/-- Modelled from the spec: the external STARK prover framework's `prove`
method — it first obtains the statement via the prover's `get_pub_inputs`
hook and only then invokes the proof engine on (trace, public inputs,
options). -/
def frameworkProve {E P : Type}
    (engine : ExecutionTrace → PublicInputs → ProofOptions → Except E P)
    (dbgAssertions : Bool) (p : ExecutionProver) (trace : ExecutionTrace) :
    FrameworkResult E P :=
  match p.get_pub_inputs dbgAssertions trace with
  | .error k => .panic k
  | .ok pub_inputs =>
    match engine trace pub_inputs p.options with
    | .error e => .err e
    | .ok proof => .ok proof

/-- Outcome of a call to `prove`: `Ok((outputs, proof))`, a returned
`ExecutionError`, or a process-terminating panic from a debug assertion. -/
inductive ProveResult (E P : Type) where
  | ok : ProgramOutputs → P → ProveResult E P
  | err : ExecutionError E → ProveResult E P
  | panic : MPanic → ProveResult E P
  deriving DecidableEq

/-- `prove` from `src/prover/src/lib.rs`: run the external execution engine,
take the program outputs from the trace, build an `ExecutionProver` and run
the framework's prove; engine errors are wrapped by
`ExecutionError::ProverError`. -/
def prove {E P : Type}
    (processorExecute :
      Program → StackInputs → ProgramInputs → Except (ExecutionError E) ExecutionTrace)
    (engine : ExecutionTrace → PublicInputs → ProofOptions → Except E P)
    (dbgAssertions : Bool)
    (program : Program) (stack_inputs : StackInputs)
    (advice_inputs : ProgramInputs) (options : ProofOptions) : ProveResult E P :=
  match processorExecute program stack_inputs advice_inputs with
  | .error e => .err e
  | .ok trace =>
    let outputs := trace.program_outputs
    let prover := ExecutionProver.new options stack_inputs outputs
    match frameworkProve engine dbgAssertions prover trace with
    | .panic k => .panic k
    | .err e => .err (.ProverError e)
    | .ok proof => .ok outputs proof

end MidenProver

/-! Concrete sample data, shared by witnesses and counterexamples. The
sample layout has no context or loop columns and a user stack of depth 4, so
each row is `[op_counter, h0, h1, s0, s1, s2, s3]` with width 7. -/

namespace Samples

/-- Initial row: op-counter 0, digest accumulator `[1, 2]`, stack `[7, 7, 0, 0]`. -/
def row0 : List Distaff.BaseElement := [0, 1, 2, 7, 7, 0, 0]

/-- Final row: op-counter 16, digest `[1, 2]`, stack `[5, 2, 9, 9]`. -/
def rowF : List Distaff.BaseElement := [16, 1, 2, 5, 2, 9, 9]

/-- Final row with only 3 operations executed. -/
def rowLowOp : List Distaff.BaseElement := [3, 1, 2, 5, 2, 9, 9]

/-- A two-row trace whose final row satisfies every distaff check. -/
def traceGood : Distaff.ExecutionTrace := ⟨7, 0, 0, [row0, rowF]⟩

/-- A two-row trace whose final op-counter is below `MIN_TRACE_LENGTH`. -/
def traceLowOp : Distaff.ExecutionTrace := ⟨7, 0, 0, [row0, rowLowOp]⟩

/-- A trace with no rows at all. -/
def traceEmpty : Distaff.ExecutionTrace := ⟨7, 0, 0, []⟩

/-- The program whose digest matches the digest columns of `traceGood`. -/
def progA : Distaff.Program := ⟨Distaff.to_bytes [1, 2]⟩

/-- A program whose digest does not match `traceGood`. -/
def progB : Distaff.Program := ⟨Distaff.to_bytes [3, 4]⟩

/-- Declared inputs matching the initial user stack of `traceGood`. -/
def inpA : Distaff.ProgramInputs := ⟨[7, 7, 0, 0], [], []⟩

/-- Declared inputs disagreeing with the initial user stack of `traceGood`. -/
def inpBad : Distaff.ProgramInputs := ⟨[1000, 1001, 1002, 1003], [], []⟩

/-- Sample proof options. -/
def opts0 : Distaff.ProofOptions := ⟨0⟩

/-- An execution engine that always yields `traceGood`. -/
def eGood : Distaff.Program → Distaff.ProgramInputs → Distaff.ExecutionTrace :=
  fun _ _ => traceGood

/-- An execution engine that always yields `traceLowOp`. -/
def eLowOp : Distaff.Program → Distaff.ProgramInputs → Distaff.ExecutionTrace :=
  fun _ _ => traceLowOp

/-- A proof engine that always succeeds with proof value `0`. -/
def pOkNat : Distaff.ExecutionTrace → Distaff.PublicInputs → Distaff.ProofOptions →
    Except Nat Nat :=
  fun _ _ _ => .ok 0

/-- A proof engine that always fails with error value `7`. -/
def pFail : Distaff.ExecutionTrace → Distaff.PublicInputs → Distaff.ProofOptions →
    Except Nat Nat :=
  fun _ _ _ => .error 7

/-- A proof engine returning the statement it was handed, used to observe
exactly which `PublicInputs` value `execute` passes to the proof engine. -/
def snoopProver : Distaff.ExecutionTrace → Distaff.PublicInputs →
    Distaff.ProofOptions → Except Nat Distaff.PublicInputs :=
  fun _ pub_inputs _ => .ok pub_inputs

/-- Declared inputs with the same public values as `inpA` but different
secret advice tapes. -/
def inpA2 : Distaff.ProgramInputs := ⟨[7, 7, 0, 0], [42], [43]⟩

/-- The statement `execute` builds for `traceGood` with `inpA` and `k = 2`. -/
def piGood : Distaff.PublicInputs := ⟨Distaff.to_bytes [1, 2], [7, 7, 0, 0], [5, 2]⟩

/-- A sample prover-side trace: initial stack `[9, 9]`, final stack `[5, 2]`. -/
def mt1 : MidenProver.ExecutionTrace := ⟨[9, 9], [5, 2], [1, 2, 3, 4], ⟨[5, 2]⟩⟩

/-- Declared stack inputs matching `mt1`. -/
def siGood : MidenProver.StackInputs := ⟨[9, 9]⟩

/-- Declared stack inputs disagreeing with `mt1` at position 0. -/
def siBad : MidenProver.StackInputs := ⟨[8]⟩

/-- Sample advice inputs. -/
def advA : MidenProver.ProgramInputs := ⟨[]⟩

/-- Sample prover-side program. -/
def mprogA : MidenProver.Program := ⟨0⟩

/-- Sample prover-side proof options. -/
def mopts : MidenProver.ProofOptions := ⟨0⟩

/-- An execution engine that always yields `mt1`. -/
def mExecOk : MidenProver.Program → MidenProver.StackInputs →
    MidenProver.ProgramInputs →
    Except (MidenProver.ExecutionError Nat) MidenProver.ExecutionTrace :=
  fun _ _ _ => .ok mt1

/-- A proof engine for the prover side that always succeeds with proof `0`. -/
def mEngineOk : MidenProver.ExecutionTrace → MidenProver.PublicInputs →
    MidenProver.ProofOptions → Except Nat Nat :=
  fun _ _ _ => .ok 0

/-- A proof engine for the prover side that always fails with error `3`. -/
def mEngineFail : MidenProver.ExecutionTrace → MidenProver.PublicInputs →
    MidenProver.ProofOptions → Except Nat Nat :=
  fun _ _ _ => .error 3

end Samples

/-! Helper evaluation lemmas for `Distaff.execute`: one lemma per branch of
the control flow, used by the inversion lemmas and the claim theorems. -/

namespace Distaff

theorem execute_eval_cap {E P : Type}
    (e : Program → ProgramInputs → ExecutionTrace)
    (pf : ExecutionTrace → PublicInputs → ProofOptions → Except E P)
    (std : Bool) (program : Program) (inputs : ProgramInputs) (k : Nat)
    (opts : ProofOptions) (hk : MAX_OUTPUTS < k) :
    execute e pf std program inputs k opts = .panic .outputCountExceeded := by
  unfold execute
  rw [if_pos hk]

theorem execute_eval_empty {E P : Type}
    (e : Program → ProgramInputs → ExecutionTrace)
    (pf : ExecutionTrace → PublicInputs → ProofOptions → Except E P)
    (std : Bool) (program : Program) (inputs : ProgramInputs) (k : Nat)
    (opts : ProofOptions) (hk : ¬ MAX_OUTPUTS < k)
    (hls : get_last_state (e program inputs) = none) :
    execute e pf std program inputs k opts = .panic .emptyTrace := by
  unfold execute
  rw [if_neg hk]
  simp only [hls]

theorem execute_eval_slice {E P : Type}
    (e : Program → ProgramInputs → ExecutionTrace)
    (pf : ExecutionTrace → PublicInputs → ProofOptions → Except E P)
    (std : Bool) (program : Program) (inputs : ProgramInputs) (k : Nat)
    (opts : ProofOptions) (ls : TraceState) (hk : ¬ MAX_OUTPUTS < k)
    (hls : get_last_state (e program inputs) = some ls)
    (hst : ls.user_stack.length < k) :
    execute e pf std program inputs k opts = .panic .stackSliceTooShort := by
  unfold execute
  rw [if_neg hk]
  simp only [hls]
  rw [if_pos hst]

theorem execute_eval_tooShort {E P : Type}
    (e : Program → ProgramInputs → ExecutionTrace)
    (pf : ExecutionTrace → PublicInputs → ProofOptions → Except E P)
    (std : Bool) (program : Program) (inputs : ProgramInputs) (k : Nat)
    (opts : ProofOptions) (ls : TraceState) (hk : ¬ MAX_OUTPUTS < k)
    (hls : get_last_state (e program inputs) = some ls)
    (hst : ¬ ls.user_stack.length < k)
    (hop : as_int ls.op_counter % 2 ^ 64 < MIN_TRACE_LENGTH) :
    execute e pf std program inputs k opts = .panic .traceTooShort := by
  unfold execute
  rw [if_neg hk]
  simp only [hls]
  rw [if_neg hst, if_pos hop]

theorem execute_eval_hashLen {E P : Type}
    (e : Program → ProgramInputs → ExecutionTrace)
    (pf : ExecutionTrace → PublicInputs → ProofOptions → Except E P)
    (std : Bool) (program : Program) (inputs : ProgramInputs) (k : Nat)
    (opts : ProofOptions) (ls : TraceState) (hk : ¬ MAX_OUTPUTS < k)
    (hls : get_last_state (e program inputs) = some ls)
    (hst : ¬ ls.user_stack.length < k)
    (hop : ¬ as_int ls.op_counter % 2 ^ 64 < MIN_TRACE_LENGTH)
    (hby : (to_bytes ls.program_hash).length ≠ 32) :
    execute e pf std program inputs k opts = .panic .hashBytesLength := by
  unfold execute
  rw [if_neg hk]
  simp only [hls]
  rw [if_neg hst, if_neg hop, if_pos hby]

theorem execute_eval_hashMismatch {E P : Type}
    (e : Program → ProgramInputs → ExecutionTrace)
    (pf : ExecutionTrace → PublicInputs → ProofOptions → Except E P)
    (std : Bool) (program : Program) (inputs : ProgramInputs) (k : Nat)
    (opts : ProofOptions) (ls : TraceState) (hk : ¬ MAX_OUTPUTS < k)
    (hls : get_last_state (e program inputs) = some ls)
    (hst : ¬ ls.user_stack.length < k)
    (hop : ¬ as_int ls.op_counter % 2 ^ 64 < MIN_TRACE_LENGTH)
    (hby : ¬ (to_bytes ls.program_hash).length ≠ 32)
    (hh : std ∧ program.hash ≠ to_bytes ls.program_hash) :
    execute e pf std program inputs k opts = .panic .programHashMismatch := by
  unfold execute
  rw [if_neg hk]
  simp only [hls]
  rw [if_neg hst, if_neg hop, if_neg hby, if_pos hh]

theorem execute_eval_main {E P : Type}
    (e : Program → ProgramInputs → ExecutionTrace)
    (pf : ExecutionTrace → PublicInputs → ProofOptions → Except E P)
    (std : Bool) (program : Program) (inputs : ProgramInputs) (k : Nat)
    (opts : ProofOptions) (ls : TraceState) (hk : ¬ MAX_OUTPUTS < k)
    (hls : get_last_state (e program inputs) = some ls)
    (hst : ¬ ls.user_stack.length < k)
    (hop : ¬ as_int ls.op_counter % 2 ^ 64 < MIN_TRACE_LENGTH)
    (hby : ¬ (to_bytes ls.program_hash).length ≠ 32)
    (hh : ¬ (std ∧ program.hash ≠ to_bytes ls.program_hash)) :
    execute e pf std program inputs k opts =
      match pf (e program inputs)
          (PublicInputs.new (to_bytes ls.program_hash)
            (inputs.public_inputs.map as_int)
            ((ls.user_stack.take k).map as_int)) opts with
      | .error er => .err er
      | .ok proof => .ok ((ls.user_stack.take k).map as_int) proof := by
  unfold execute
  rw [if_neg hk]
  simp only [hls]
  rw [if_neg hst, if_neg hop, if_neg hby, if_neg hh]

theorem execute_ok_inv {E P : Type}
    (e : Program → ProgramInputs → ExecutionTrace)
    (pf : ExecutionTrace → PublicInputs → ProofOptions → Except E P)
    (std : Bool) (program : Program) (inputs : ProgramInputs) (k : Nat)
    (opts : ProofOptions) (outs : List Nat) (proof : P)
    (h : execute e pf std program inputs k opts = .ok outs proof) :
    ∃ ls, get_last_state (e program inputs) = some ls ∧
      k ≤ ls.user_stack.length ∧
      MIN_TRACE_LENGTH ≤ as_int ls.op_counter % 2 ^ 64 ∧
      outs = (ls.user_stack.take k).map as_int ∧
      pf (e program inputs)
        (PublicInputs.new (to_bytes ls.program_hash)
          (inputs.public_inputs.map as_int) outs) opts = .ok proof := by
  by_cases hk : MAX_OUTPUTS < k
  · rw [execute_eval_cap e pf std program inputs k opts hk] at h
    exact absurd h (by simp)
  cases hls : get_last_state (e program inputs) with
  | none =>
    rw [execute_eval_empty e pf std program inputs k opts hk hls] at h
    exact absurd h (by simp)
  | some ls =>
    by_cases hst : ls.user_stack.length < k
    · rw [execute_eval_slice e pf std program inputs k opts ls hk hls hst] at h
      exact absurd h (by simp)
    by_cases hop : as_int ls.op_counter % 2 ^ 64 < MIN_TRACE_LENGTH
    · rw [execute_eval_tooShort e pf std program inputs k opts ls hk hls hst hop] at h
      exact absurd h (by simp)
    by_cases hby : (to_bytes ls.program_hash).length ≠ 32
    · rw [execute_eval_hashLen e pf std program inputs k opts ls hk hls hst hop hby] at h
      exact absurd h (by simp)
    by_cases hh : std ∧ program.hash ≠ to_bytes ls.program_hash
    · rw [execute_eval_hashMismatch e pf std program inputs k opts ls hk hls hst hop hby hh] at h
      exact absurd h (by simp)
    rw [execute_eval_main e pf std program inputs k opts ls hk hls hst hop hby hh] at h
    cases hpf : pf (e program inputs)
        (PublicInputs.new (to_bytes ls.program_hash)
          (inputs.public_inputs.map as_int)
          ((ls.user_stack.take k).map as_int)) opts with
    | error er =>
      rw [hpf] at h
      exact absurd h (by simp)
    | ok pr =>
      rw [hpf] at h
      simp only [ExecResult.ok.injEq] at h
      obtain ⟨h1, h2⟩ := h
      subst h1
      subst h2
      exact ⟨ls, rfl, by omega, by omega, rfl, hpf⟩

theorem execute_err_inv {E P : Type}
    (e : Program → ProgramInputs → ExecutionTrace)
    (pf : ExecutionTrace → PublicInputs → ProofOptions → Except E P)
    (std : Bool) (program : Program) (inputs : ProgramInputs) (k : Nat)
    (opts : ProofOptions) (er : E)
    (h : execute e pf std program inputs k opts = .err er) :
    ∃ ls, get_last_state (e program inputs) = some ls ∧
      pf (e program inputs)
        (PublicInputs.new (to_bytes ls.program_hash)
          (inputs.public_inputs.map as_int)
          ((ls.user_stack.take k).map as_int)) opts = .error er := by
  by_cases hk : MAX_OUTPUTS < k
  · rw [execute_eval_cap e pf std program inputs k opts hk] at h
    exact absurd h (by simp)
  cases hls : get_last_state (e program inputs) with
  | none =>
    rw [execute_eval_empty e pf std program inputs k opts hk hls] at h
    exact absurd h (by simp)
  | some ls =>
    by_cases hst : ls.user_stack.length < k
    · rw [execute_eval_slice e pf std program inputs k opts ls hk hls hst] at h
      exact absurd h (by simp)
    by_cases hop : as_int ls.op_counter % 2 ^ 64 < MIN_TRACE_LENGTH
    · rw [execute_eval_tooShort e pf std program inputs k opts ls hk hls hst hop] at h
      exact absurd h (by simp)
    by_cases hby : (to_bytes ls.program_hash).length ≠ 32
    · rw [execute_eval_hashLen e pf std program inputs k opts ls hk hls hst hop hby] at h
      exact absurd h (by simp)
    by_cases hh : std ∧ program.hash ≠ to_bytes ls.program_hash
    · rw [execute_eval_hashMismatch e pf std program inputs k opts ls hk hls hst hop hby hh] at h
      exact absurd h (by simp)
    rw [execute_eval_main e pf std program inputs k opts ls hk hls hst hop hby hh] at h
    cases hpf : pf (e program inputs)
        (PublicInputs.new (to_bytes ls.program_hash)
          (inputs.public_inputs.map as_int)
          ((ls.user_stack.take k).map as_int)) opts with
    | error er2 =>
      rw [hpf] at h
      simp only [ExecResult.err.injEq] at h
      subst h
      exact ⟨ls, rfl, hpf⟩
    | ok pr =>
      rw [hpf] at h
      exact absurd h (by simp)

end Distaff

/-! Helper evaluation lemmas for the prover-side `get_pub_inputs` and
`frameworkProve`, and the characterization of the zip comparison. -/

namespace MidenProver

theorem get_pub_inputs_eval_inputs (p : ExecutionProver) (t : ExecutionTrace)
    (h : p.are_inputs_valid t = false) :
    p.get_pub_inputs true t = .error .inputsMismatch := by
  unfold ExecutionProver.get_pub_inputs
  rw [if_pos ⟨rfl, by simp [h]⟩]

theorem get_pub_inputs_eval_outputs (p : ExecutionProver) (t : ExecutionTrace)
    (hin : p.are_inputs_valid t = true) (hout : p.are_outputs_valid t = false) :
    p.get_pub_inputs true t = .error .outputsMismatch := by
  unfold ExecutionProver.get_pub_inputs
  rw [if_neg (by simp [hin]), if_pos ⟨rfl, by simp [hout]⟩]

theorem get_pub_inputs_eval_release (p : ExecutionProver) (t : ExecutionTrace) :
    p.get_pub_inputs false t =
      .ok (PublicInputs.new t.program_hash p.stack_inputs p.outputs) := by
  unfold ExecutionProver.get_pub_inputs
  rw [if_neg (by simp), if_neg (by simp)]

theorem get_pub_inputs_eval_valid (dbg : Bool) (p : ExecutionProver)
    (t : ExecutionTrace) (hin : p.are_inputs_valid t = true)
    (hout : p.are_outputs_valid t = true) :
    p.get_pub_inputs dbg t =
      .ok (PublicInputs.new t.program_hash p.stack_inputs p.outputs) := by
  unfold ExecutionProver.get_pub_inputs
  rw [if_neg (by simp [hin]), if_neg (by simp [hout])]

theorem frameworkProve_eval_inputs {E P : Type}
    (engine : ExecutionTrace → PublicInputs → ProofOptions → Except E P)
    (p : ExecutionProver) (t : ExecutionTrace)
    (h : p.are_inputs_valid t = false) :
    frameworkProve engine true p t = .panic .inputsMismatch := by
  unfold frameworkProve
  rw [get_pub_inputs_eval_inputs p t h]

theorem zip_all_beq_iff (xs ys : List Nat) :
    ((xs.zip ys).all fun ab => ab.1 == ab.2) = true ↔
      ∀ i, i < min xs.length ys.length → xs.getD i 0 = ys.getD i 0 := by
  induction xs generalizing ys with
  | nil => simp
  | cons x xs ih =>
    cases ys with
    | nil => simp
    | cons y ys =>
      simp only [List.zip_cons_cons, List.all_cons, Bool.and_eq_true, beq_iff_eq,
        List.length_cons, ih]
      constructor
      · rintro ⟨hxy, hrest⟩ i hi
        cases i with
        | zero => simpa using hxy
        | succ n =>
          simp only [List.getD_cons_succ]
          exact hrest n (by omega)
      · intro hall
        refine ⟨by simpa using hall 0 (by omega), fun i hi => ?_⟩
        have hstep := hall (i + 1) (by omega)
        simpa using hstep

end MidenProver

/-! Claim theorems. -/

/-- C4: when the requested output count exceeds `MAX_OUTPUTS`, `execute`
fails at once with the output-count assertion, and its result is independent
of both the execution engine and the proof engine — the cap is checked
before any trace is produced, so the execution engine is never invoked. -/
theorem claim_C4_output_cap_checked_before_execution {E P : Type}
    (e1 e2 : Distaff.Program → Distaff.ProgramInputs → Distaff.ExecutionTrace)
    (p1 p2 : Distaff.ExecutionTrace → Distaff.PublicInputs → Distaff.ProofOptions →
      Except E P)
    (std : Bool) (program : Distaff.Program) (inputs : Distaff.ProgramInputs)
    (k : Nat) (opts : Distaff.ProofOptions) (hk : Distaff.MAX_OUTPUTS < k) :
    Distaff.execute e1 p1 std program inputs k opts =
      Distaff.ExecResult.panic .outputCountExceeded ∧
    Distaff.execute e1 p1 std program inputs k opts =
      Distaff.execute e2 p2 std program inputs k opts := by
  rw [Distaff.execute_eval_cap e1 p1 std program inputs k opts hk,
    Distaff.execute_eval_cap e2 p2 std program inputs k opts hk]
  exact ⟨rfl, rfl⟩

/-- C4 witness: requesting 9 outputs (cap is 8) panics with the output-count
assertion for any engines. -/
theorem claim_C4_witness :
    Distaff.execute Samples.eGood Samples.pOkNat true Samples.progA Samples.inpA 9
      Samples.opts0 = Distaff.ExecResult.panic .outputCountExceeded ∧
    Distaff.execute Samples.eGood Samples.pOkNat true Samples.progA Samples.inpA 9
      Samples.opts0 =
      Distaff.execute Samples.eLowOp Samples.pFail true Samples.progA Samples.inpA 9
        Samples.opts0 :=
  claim_C4_output_cap_checked_before_execution Samples.eGood Samples.eLowOp
    Samples.pOkNat Samples.pFail true Samples.progA Samples.inpA 9 Samples.opts0
    (by decide)

/-- C10: `get_last_state` computes the final row index as `trace.length() - 1`
with no emptiness check: every trace with at least one row is decoded at
exactly row `length - 1` using the layout derived from the trace's own shape,
while on a zero-length trace the subtraction has no well-defined row to read
(the modelled panic `none`), so `trace.length() ≥ 1` is a genuine
precondition. -/
theorem claim_C10_get_last_state_decodes_final_row (t : Distaff.ExecutionTrace)
    (h : 1 ≤ t.length) :
    Distaff.get_last_state t =
      some (Distaff.TraceState.from_slice
        (Distaff.TraceMetadata.from_trace_info t).ctx_depth
        (Distaff.TraceMetadata.from_trace_info t).loop_depth
        (Distaff.TraceMetadata.from_trace_info t).stack_depth
        (t.read_row (t.length - 1))) ∧
    (∀ t0 : Distaff.ExecutionTrace, t0.length = 0 →
      Distaff.get_last_state t0 = none) := by
  constructor
  · unfold Distaff.get_last_state
    rw [if_neg (by omega)]
  · intro t0 h0
    unfold Distaff.get_last_state
    rw [if_pos h0]

/-- C10 witness: the two-row sample trace decodes to its final row, and the
empty trace has no last state. -/
theorem claim_C10_witness :
    Distaff.get_last_state Samples.traceGood =
      some (Distaff.TraceState.from_slice
        (Distaff.TraceMetadata.from_trace_info Samples.traceGood).ctx_depth
        (Distaff.TraceMetadata.from_trace_info Samples.traceGood).loop_depth
        (Distaff.TraceMetadata.from_trace_info Samples.traceGood).stack_depth
        (Samples.traceGood.read_row (Samples.traceGood.length - 1))) ∧
    Distaff.get_last_state Samples.traceEmpty = none :=
  ⟨(claim_C10_get_last_state_decodes_final_row Samples.traceGood (by decide)).1,
    (claim_C10_get_last_state_decodes_final_row Samples.traceGood (by decide)).2
      Samples.traceEmpty (by decide)⟩

/-- C9: `are_inputs_valid` and `are_outputs_valid` compare declared and
observed boundary stacks only over the first `min` of the two lengths
(element-wise zip): they return true exactly when the two sequences agree on
their common prefix, so in particular an empty declared input or output list
is accepted against every trace and a pure length mismatch is never
detected. -/
theorem claim_C9_zip_prefix_comparison (p : MidenProver.ExecutionProver)
    (t : MidenProver.ExecutionTrace) :
    (p.are_inputs_valid t = true ↔
      ∀ i, i < min p.stack_inputs.values.length t.init_stack_state.length →
        p.stack_inputs.values.getD i 0 = t.init_stack_state.getD i 0) ∧
    (p.are_outputs_valid t = true ↔
      ∀ i, i < min p.outputs.stack_top.length t.last_stack_state.length →
        p.outputs.stack_top.getD i 0 = t.last_stack_state.getD i 0) ∧
    (p.stack_inputs.values = [] → p.are_inputs_valid t = true) ∧
    (p.outputs.stack_top = [] → p.are_outputs_valid t = true) := by
  refine ⟨MidenProver.zip_all_beq_iff _ _, MidenProver.zip_all_beq_iff _ _, ?_, ?_⟩
  · intro h
    unfold MidenProver.ExecutionProver.are_inputs_valid
    rw [h]
    rfl
  · intro h
    unfold MidenProver.ExecutionProver.are_outputs_valid
    rw [h]
    rfl

/-- C9 witness: empty declared input and output lists are accepted against
the sample trace whose boundary stacks are non-empty. -/
theorem claim_C9_witness :
    MidenProver.ExecutionProver.are_inputs_valid
      ⟨Samples.mopts, ⟨[]⟩, ⟨[]⟩⟩ Samples.mt1 = true ∧
    MidenProver.ExecutionProver.are_outputs_valid
      ⟨Samples.mopts, ⟨[]⟩, ⟨[]⟩⟩ Samples.mt1 = true :=
  ⟨(claim_C9_zip_prefix_comparison ⟨Samples.mopts, ⟨[]⟩, ⟨[]⟩⟩ Samples.mt1).2.2.1
      rfl,
    (claim_C9_zip_prefix_comparison ⟨Samples.mopts, ⟨[]⟩, ⟨[]⟩⟩ Samples.mt1).2.2.2
      rfl⟩

/-- C3 counterexample: `traceGood` has only 2 steps, fewer than
`MIN_TRACE_LENGTH = 16`, and every binding (hash, inputs, outputs) is
correct; the claim demands a `TraceTooShort` failure, yet `execute` succeeds
and returns a proof, because the assertion inspects the final row's
op-counter (16 here), not `trace.length()`. -/
theorem claim_C3_counterexample :
    (Samples.eGood Samples.progA Samples.inpA).length < Distaff.MIN_TRACE_LENGTH ∧
    Distaff.execute Samples.eGood Samples.pOkNat true Samples.progA Samples.inpA 2
      Samples.opts0 = Distaff.ExecResult.ok [5, 2] 0 := by decide

/-- C3 (amended): the minimum-length validation inspects the op-counter of
the decoded final row (cast to `usize`), not `trace.length()`: whenever that
op-counter is below `MIN_TRACE_LENGTH` (and the checks preceding it pass),
`execute` panics with the trace-too-short assertion — regardless of the
hash, input and output bindings — and the proof engine is never invoked. -/
theorem claim_C3_min_length_checks_op_counter {E P : Type}
    (e : Distaff.Program → Distaff.ProgramInputs → Distaff.ExecutionTrace)
    (p1 p2 : Distaff.ExecutionTrace → Distaff.PublicInputs → Distaff.ProofOptions →
      Except E P)
    (std : Bool) (program : Distaff.Program) (inputs : Distaff.ProgramInputs)
    (k : Nat) (opts : Distaff.ProofOptions) (ls : Distaff.TraceState)
    (hk : k ≤ Distaff.MAX_OUTPUTS)
    (hls : Distaff.get_last_state (e program inputs) = some ls)
    (hst : k ≤ ls.user_stack.length)
    (hop : Distaff.as_int ls.op_counter % 2 ^ 64 < Distaff.MIN_TRACE_LENGTH) :
    Distaff.execute e p1 std program inputs k opts =
      Distaff.ExecResult.panic .traceTooShort ∧
    Distaff.execute e p1 std program inputs k opts =
      Distaff.execute e p2 std program inputs k opts := by
  rw [Distaff.execute_eval_tooShort e p1 std program inputs k opts ls
      (by omega) hls (by omega) hop,
    Distaff.execute_eval_tooShort e p2 std program inputs k opts ls
      (by omega) hls (by omega) hop]
  exact ⟨rfl, rfl⟩

/-- C3 witness: a final row with op-counter 3 makes `execute` panic with the
trace-too-short assertion for any proof engine. -/
theorem claim_C3_witness :
    Distaff.execute Samples.eLowOp Samples.pOkNat true Samples.progA Samples.inpA 2
      Samples.opts0 = Distaff.ExecResult.panic .traceTooShort ∧
    Distaff.execute Samples.eLowOp Samples.pOkNat true Samples.progA Samples.inpA 2
      Samples.opts0 =
      Distaff.execute Samples.eLowOp Samples.pFail true Samples.progA Samples.inpA 2
        Samples.opts0 :=
  claim_C3_min_length_checks_op_counter Samples.eLowOp Samples.pOkNat Samples.pFail
    true Samples.progA Samples.inpA 2 Samples.opts0
    (Distaff.TraceState.from_slice 0 0 4 Samples.rowLowOp)
    (by decide) (by decide) (by decide) (by decide)

/-- C1 counterexample: when the crate is compiled without the `std` feature,
the program-hash assertion of `execute` is compiled out
(`#[cfg(feature = "std")]` on the `assert!` at src/distaff/src/lib.rs:69-75):
here the digest bytes in the trace's final row differ from the claimed
program's hash, yet `execute` invokes the proof engine and returns `Ok` — a
proof is generated for a mismatched program/trace pair. -/
theorem claim_C1_counterexample :
    Samples.progB.hash ≠
      Distaff.to_bytes
        (Distaff.TraceState.from_slice 0 0 4 Samples.rowF).program_hash ∧
    Distaff.get_last_state (Samples.eGood Samples.progB Samples.inpA) =
      some (Distaff.TraceState.from_slice 0 0 4 Samples.rowF) ∧
    Distaff.execute Samples.eGood Samples.pOkNat false Samples.progB Samples.inpA 2
      Samples.opts0 = Distaff.ExecResult.ok [5, 2] 0 := by
  refine ⟨by decide, by decide, by decide⟩

/-- C1 (amended): in a build with the `std` feature, whenever the digest
bytes embedded in the trace's final row differ from the hash of the claimed
`Program`, the result of `execute` is independent of the proof engine (the
engine is never invoked) and is never `Ok` — no proof is generated for a
mismatched program/trace pair. Without the `std` feature the check is
compiled out (see the counterexample). -/
theorem claim_C1_hash_mismatch_blocks_proving {E P : Type}
    (e : Distaff.Program → Distaff.ProgramInputs → Distaff.ExecutionTrace)
    (p1 p2 : Distaff.ExecutionTrace → Distaff.PublicInputs → Distaff.ProofOptions →
      Except E P)
    (program : Distaff.Program) (inputs : Distaff.ProgramInputs) (k : Nat)
    (opts : Distaff.ProofOptions) (ls : Distaff.TraceState)
    (hls : Distaff.get_last_state (e program inputs) = some ls)
    (hm : program.hash ≠ Distaff.to_bytes ls.program_hash) :
    Distaff.execute e p1 true program inputs k opts =
      Distaff.execute e p2 true program inputs k opts ∧
    (Distaff.execute e p1 true program inputs k opts).isOk = false := by
  by_cases hk : Distaff.MAX_OUTPUTS < k
  · rw [Distaff.execute_eval_cap e p1 true program inputs k opts hk,
      Distaff.execute_eval_cap e p2 true program inputs k opts hk]
    exact ⟨rfl, rfl⟩
  by_cases hst : ls.user_stack.length < k
  · rw [Distaff.execute_eval_slice e p1 true program inputs k opts ls hk hls hst,
      Distaff.execute_eval_slice e p2 true program inputs k opts ls hk hls hst]
    exact ⟨rfl, rfl⟩
  by_cases hop : Distaff.as_int ls.op_counter % 2 ^ 64 < Distaff.MIN_TRACE_LENGTH
  · rw [Distaff.execute_eval_tooShort e p1 true program inputs k opts ls hk hls hst hop,
      Distaff.execute_eval_tooShort e p2 true program inputs k opts ls hk hls hst hop]
    exact ⟨rfl, rfl⟩
  by_cases hby : (Distaff.to_bytes ls.program_hash).length ≠ 32
  · rw [Distaff.execute_eval_hashLen e p1 true program inputs k opts ls hk hls hst
        hop hby,
      Distaff.execute_eval_hashLen e p2 true program inputs k opts ls hk hls hst
        hop hby]
    exact ⟨rfl, rfl⟩
  · rw [Distaff.execute_eval_hashMismatch e p1 true program inputs k opts ls hk hls
        hst hop hby ⟨rfl, hm⟩,
      Distaff.execute_eval_hashMismatch e p2 true program inputs k opts ls hk hls
        hst hop hby ⟨rfl, hm⟩]
    exact ⟨rfl, rfl⟩

/-- C1 witness: with the mismatched program `progB` and the `std` feature on,
`execute` gives the same non-`Ok` result under a succeeding and under a
failing proof engine. -/
theorem claim_C1_witness :
    Distaff.execute Samples.eGood Samples.pOkNat true Samples.progB Samples.inpA 2
      Samples.opts0 =
      Distaff.execute Samples.eGood Samples.pFail true Samples.progB Samples.inpA 2
        Samples.opts0 ∧
    (Distaff.execute Samples.eGood Samples.pOkNat true Samples.progB Samples.inpA 2
      Samples.opts0).isOk = false :=
  claim_C1_hash_mismatch_blocks_proving Samples.eGood Samples.pOkNat Samples.pFail
    Samples.progB Samples.inpA 2 Samples.opts0
    (Distaff.TraceState.from_slice 0 0 4 Samples.rowF) (by decide) (by decide)

/-- C2 counterexample: in a release build (debug assertions compiled out),
the declared stack inputs `[8]` disagree with the trace's initial stack
state `[9, 9]`, and yet the full `prove` pipeline is not rejected: it runs
the proof engine and returns `Ok` with a proof. -/
theorem claim_C2_counterexample :
    MidenProver.ExecutionProver.are_inputs_valid
      ⟨Samples.mopts, Samples.siBad, ⟨[5, 2]⟩⟩ Samples.mt1 = false ∧
    MidenProver.prove Samples.mExecOk Samples.mEngineOk false Samples.mprogA
      Samples.siBad Samples.advA Samples.mopts
      = MidenProver.ProveResult.ok ⟨[5, 2]⟩ 0 := by decide

/-- C2 (amended): the input-binding check exists only as a `debug_assert!`
inside `get_pub_inputs`: when debug assertions are enabled and the declared
`StackInputs` disagree with the trace's initial stack state somewhere on
their common prefix (`are_inputs_valid` false), `get_pub_inputs` panics, so
the framework's prove call aborts before the proof engine is invoked and its
result is independent of the engine. With debug assertions disabled, or when
the two sequences only differ in length, nothing is rejected. -/
theorem claim_C2_input_binding_debug_only {E P : Type}
    (engine1 engine2 : MidenProver.ExecutionTrace → MidenProver.PublicInputs →
      MidenProver.ProofOptions → Except E P)
    (p : MidenProver.ExecutionProver) (t : MidenProver.ExecutionTrace)
    (h : p.are_inputs_valid t = false) :
    p.get_pub_inputs true t = .error .inputsMismatch ∧
    MidenProver.frameworkProve engine1 true p t =
      MidenProver.FrameworkResult.panic .inputsMismatch ∧
    MidenProver.frameworkProve engine1 true p t =
      MidenProver.frameworkProve engine2 true p t := by
  refine ⟨MidenProver.get_pub_inputs_eval_inputs p t h, ?_, ?_⟩
  · exact MidenProver.frameworkProve_eval_inputs engine1 p t h
  · rw [MidenProver.frameworkProve_eval_inputs engine1 p t h,
      MidenProver.frameworkProve_eval_inputs engine2 p t h]

/-- C2 witness: with debug assertions enabled, declared inputs `[8]` against
initial stack `[9, 9]` panic in `get_pub_inputs` before any engine runs. -/
theorem claim_C2_witness :
    MidenProver.ExecutionProver.get_pub_inputs true
      ⟨Samples.mopts, Samples.siBad, ⟨[5, 2]⟩⟩ Samples.mt1 =
      Except.error .inputsMismatch ∧
    MidenProver.frameworkProve Samples.mEngineOk true
      ⟨Samples.mopts, Samples.siBad, ⟨[5, 2]⟩⟩ Samples.mt1 =
      MidenProver.FrameworkResult.panic .inputsMismatch ∧
    MidenProver.frameworkProve Samples.mEngineOk true
      ⟨Samples.mopts, Samples.siBad, ⟨[5, 2]⟩⟩ Samples.mt1 =
      MidenProver.frameworkProve Samples.mEngineFail true
        ⟨Samples.mopts, Samples.siBad, ⟨[5, 2]⟩⟩ Samples.mt1 :=
  claim_C2_input_binding_debug_only Samples.mEngineOk Samples.mEngineFail
    ⟨Samples.mopts, Samples.siBad, ⟨[5, 2]⟩⟩ Samples.mt1 (by decide)

/-- C5 counterexample: the output-count check does not produce a recoverable
error value returned to the caller: requesting 9 outputs makes `execute`
abort with an assertion panic (`isErr` is false — there is no inspectable
error value, the process terminates). -/
theorem claim_C5_counterexample :
    Distaff.execute Samples.eGood Samples.pOkNat true Samples.progA Samples.inpA 9
      Samples.opts0 = Distaff.ExecResult.panic .outputCountExceeded ∧
    (Distaff.execute Samples.eGood Samples.pOkNat true Samples.progA Samples.inpA 9
      Samples.opts0).isErr = false := by decide

/-- C5 (amended): the validator checks abort the process instead of
returning error values: the output-count cap, the op-counter minimum and the
program-hash binding fail as `assert!` panics, and the input/output bindings
fail as `debug_assert!` panics (debug builds only); the only recoverable
error values ever returned by `execute` are the ones propagated from the
external proof engine; and on every failure path — panic or error — no
output and no proof is returned. -/
theorem claim_C5_validator_failures_abort {E P : Type}
    (e : Distaff.Program → Distaff.ProgramInputs → Distaff.ExecutionTrace)
    (pf : Distaff.ExecutionTrace → Distaff.PublicInputs → Distaff.ProofOptions →
      Except E P)
    (std : Bool) (program : Distaff.Program) (inputs : Distaff.ProgramInputs)
    (k : Nat) (opts : Distaff.ProofOptions) (ls : Distaff.TraceState) (er : E)
    (mp : MidenProver.ExecutionProver) (mt : MidenProver.ExecutionTrace) :
    (Distaff.MAX_OUTPUTS < k →
      Distaff.execute e pf std program inputs k opts =
        Distaff.ExecResult.panic .outputCountExceeded) ∧
    (Distaff.get_last_state (e program inputs) = some ls →
      k ≤ Distaff.MAX_OUTPUTS → k ≤ ls.user_stack.length →
      Distaff.as_int ls.op_counter % 2 ^ 64 < Distaff.MIN_TRACE_LENGTH →
      Distaff.execute e pf std program inputs k opts =
        Distaff.ExecResult.panic .traceTooShort) ∧
    (Distaff.get_last_state (e program inputs) = some ls →
      k ≤ Distaff.MAX_OUTPUTS → k ≤ ls.user_stack.length →
      Distaff.MIN_TRACE_LENGTH ≤ Distaff.as_int ls.op_counter % 2 ^ 64 →
      (Distaff.to_bytes ls.program_hash).length = 32 →
      program.hash ≠ Distaff.to_bytes ls.program_hash →
      Distaff.execute e pf true program inputs k opts =
        Distaff.ExecResult.panic .programHashMismatch) ∧
    (Distaff.execute e pf std program inputs k opts = Distaff.ExecResult.err er →
      ∃ pub_inputs, pf (e program inputs) pub_inputs opts = .error er) ∧
    (mp.are_inputs_valid mt = false →
      mp.get_pub_inputs true mt = .error .inputsMismatch) ∧
    (mp.are_inputs_valid mt = true → mp.are_outputs_valid mt = false →
      mp.get_pub_inputs true mt = .error .outputsMismatch) ∧
    (∀ pk, Distaff.execute e pf std program inputs k opts =
        Distaff.ExecResult.panic pk →
      (Distaff.execute e pf std program inputs k opts).isOk = false ∧
      (Distaff.execute e pf std program inputs k opts).isErr = false) := by
  refine ⟨?_, ?_, ?_, ?_, ?_, ?_, ?_⟩
  · intro hk
    exact Distaff.execute_eval_cap e pf std program inputs k opts hk
  · intro hls hk hst hop
    exact Distaff.execute_eval_tooShort e pf std program inputs k opts ls
      (by omega) hls (by omega) hop
  · intro hls hk hst hop hby hm
    exact Distaff.execute_eval_hashMismatch e pf true program inputs k opts ls
      (by omega) hls (by omega) (by omega) (by simp [hby]) ⟨rfl, hm⟩
  · intro herr
    obtain ⟨ls2, _, hpf⟩ := Distaff.execute_err_inv e pf std program inputs k opts
      er herr
    exact ⟨_, hpf⟩
  · intro h
    exact MidenProver.get_pub_inputs_eval_inputs mp mt h
  · intro hin hout
    exact MidenProver.get_pub_inputs_eval_outputs mp mt hin hout
  · intro pk hpk
    rw [hpk]
    exact ⟨rfl, rfl⟩

/-- C5 witness: three concrete validator failures, each a panic: output
count 9, op-counter 3, and mismatched declared inputs under debug
assertions. -/
theorem claim_C5_witness :
    Distaff.execute Samples.eGood Samples.pOkNat true Samples.progA Samples.inpA 9
      Samples.opts0 = Distaff.ExecResult.panic .outputCountExceeded ∧
    Distaff.execute Samples.eLowOp Samples.pOkNat true Samples.progA Samples.inpA 2
      Samples.opts0 = Distaff.ExecResult.panic .traceTooShort ∧
    MidenProver.ExecutionProver.get_pub_inputs true
      ⟨Samples.mopts, Samples.siBad, ⟨[5, 2]⟩⟩ Samples.mt1 =
      Except.error .inputsMismatch :=
  ⟨(claim_C5_validator_failures_abort Samples.eGood Samples.pOkNat true
      Samples.progA Samples.inpA 9 Samples.opts0
      (Distaff.TraceState.from_slice 0 0 4 Samples.rowF) 0
      ⟨Samples.mopts, Samples.siBad, ⟨[5, 2]⟩⟩ Samples.mt1).1 (by decide),
    (claim_C5_validator_failures_abort Samples.eLowOp Samples.pOkNat true
      Samples.progA Samples.inpA 2 Samples.opts0
      (Distaff.TraceState.from_slice 0 0 4 Samples.rowLowOp) 0
      ⟨Samples.mopts, Samples.siBad, ⟨[5, 2]⟩⟩ Samples.mt1).2.1
      (by decide) (by decide) (by decide) (by decide),
    (claim_C5_validator_failures_abort Samples.eGood Samples.pOkNat true
      Samples.progA Samples.inpA 2 Samples.opts0
      (Distaff.TraceState.from_slice 0 0 4 Samples.rowF) 0
      ⟨Samples.mopts, Samples.siBad, ⟨[5, 2]⟩⟩ Samples.mt1).2.2.2.2.1
      (by decide)⟩

/-- C6: the `PublicInputs` statement handed to the proof engine is built
from exactly (program-hash bytes of the final row, declared public input
values, extracted outputs): every successful run yields a statement equal to
`PublicInputs.new` of those three components, and any two runs — with
different programs, advice tapes, executors or traces — that agree on the
three components produce identical statements, so no secret advice-tape or
other trace data flows in and a verifier can rebuild the statement from the
three components alone. -/
theorem claim_C6_public_inputs_from_three_components
    (e1 e2 : Distaff.Program → Distaff.ProgramInputs → Distaff.ExecutionTrace)
    (std1 std2 : Bool) (prog1 prog2 : Distaff.Program)
    (i1 i2 : Distaff.ProgramInputs) (k1 k2 : Nat)
    (opts1 opts2 : Distaff.ProofOptions) (outs1 outs2 : List Nat)
    (pi1 pi2 : Distaff.PublicInputs)
    (h1 : Distaff.execute e1 Samples.snoopProver std1 prog1 i1 k1 opts1 =
      Distaff.ExecResult.ok outs1 pi1)
    (h2 : Distaff.execute e2 Samples.snoopProver std2 prog2 i2 k2 opts2 =
      Distaff.ExecResult.ok outs2 pi2) :
    (∃ ls1, Distaff.get_last_state (e1 prog1 i1) = some ls1 ∧
      pi1 = Distaff.PublicInputs.new (Distaff.to_bytes ls1.program_hash)
        (i1.public_inputs.map Distaff.as_int) outs1) ∧
    (pi1.program_hash = pi2.program_hash →
      i1.public_inputs = i2.public_inputs → outs1 = outs2 → pi1 = pi2) := by
  obtain ⟨ls1, hgl1, _, _, _, hpf1⟩ :=
    Distaff.execute_ok_inv e1 Samples.snoopProver std1 prog1 i1 k1 opts1 outs1
      pi1 h1
  obtain ⟨ls2, hgl2, _, _, _, hpf2⟩ :=
    Distaff.execute_ok_inv e2 Samples.snoopProver std2 prog2 i2 k2 opts2 outs2
      pi2 h2
  simp only [Samples.snoopProver, Except.ok.injEq] at hpf1 hpf2
  refine ⟨⟨ls1, hgl1, hpf1.symm⟩, fun hh hi ho => ?_⟩
  rw [← hpf1, ← hpf2] at hh ⊢
  simp only [Distaff.PublicInputs.new] at hh ⊢
  rw [hh, hi, ho]

/-- C6 witness: two runs with different secret advice tapes but the same
program hash, public inputs and outputs produce the identical statement. -/
theorem claim_C6_witness :
    (∃ ls1, Distaff.get_last_state (Samples.eGood Samples.progA Samples.inpA) =
        some ls1 ∧
      Samples.piGood = Distaff.PublicInputs.new
        (Distaff.to_bytes ls1.program_hash)
        (Samples.inpA.public_inputs.map Distaff.as_int) [5, 2]) ∧
    (Samples.piGood.program_hash = Samples.piGood.program_hash →
      Samples.inpA.public_inputs = Samples.inpA2.public_inputs →
      ([5, 2] : List Nat) = [5, 2] → Samples.piGood = Samples.piGood) :=
  claim_C6_public_inputs_from_three_components Samples.eGood Samples.eGood
    true true Samples.progA Samples.progA Samples.inpA Samples.inpA2 2 2
    Samples.opts0 Samples.opts0 [5, 2] [5, 2] Samples.piGood Samples.piGood
    (by decide) (by decide)

/-- C7: on every successful `execute` call with requested output count `k`,
the returned outputs are exactly the first `k` values of the decoded
final-row user stack mapped through `as_int` (the integer domain), and the
statement handed to the proof engine embeds exactly that same list as its
outputs component — never caller-supplied data. -/
theorem claim_C7_outputs_extracted_and_embedded {E P : Type}
    (e : Distaff.Program → Distaff.ProgramInputs → Distaff.ExecutionTrace)
    (pf : Distaff.ExecutionTrace → Distaff.PublicInputs → Distaff.ProofOptions →
      Except E P)
    (std : Bool) (program : Distaff.Program) (inputs : Distaff.ProgramInputs)
    (k : Nat) (opts : Distaff.ProofOptions) (outs : List Nat) (proof : P)
    (outs2 : List Nat) (pi : Distaff.PublicInputs) :
    (Distaff.execute e pf std program inputs k opts =
        Distaff.ExecResult.ok outs proof →
      ∃ ls, Distaff.get_last_state (e program inputs) = some ls ∧
        k ≤ ls.user_stack.length ∧
        outs = (ls.user_stack.take k).map Distaff.as_int ∧ outs.length = k) ∧
    (Distaff.execute e Samples.snoopProver std program inputs k opts =
        Distaff.ExecResult.ok outs2 pi →
      pi.outputs = outs2) := by
  constructor
  · intro h
    obtain ⟨ls, hgl, hlen, _, houts, _⟩ :=
      Distaff.execute_ok_inv e pf std program inputs k opts outs proof h
    refine ⟨ls, hgl, hlen, houts, ?_⟩
    rw [houts]
    simp only [List.length_map, List.length_take]
    omega
  · intro h
    obtain ⟨ls, _, _, _, _, hpf⟩ :=
      Distaff.execute_ok_inv e Samples.snoopProver std program inputs k opts
        outs2 pi h
    simp only [Samples.snoopProver, Except.ok.injEq] at hpf
    rw [← hpf]
    rfl

/-- C7 witness: with `k = 2`, the successful run returns `[5, 2]` — the top
two final-row stack values — and the statement embeds that exact list. -/
theorem claim_C7_witness :
    (∃ ls, Distaff.get_last_state (Samples.eGood Samples.progA Samples.inpA) =
        some ls ∧
      2 ≤ ls.user_stack.length ∧
      ([5, 2] : List Nat) = (ls.user_stack.take 2).map Distaff.as_int ∧
      ([5, 2] : List Nat).length = 2) ∧
    Samples.piGood.outputs = [5, 2] :=
  ⟨(claim_C7_outputs_extracted_and_embedded Samples.eGood Samples.pOkNat true
      Samples.progA Samples.inpA 2 Samples.opts0 [5, 2] 0 [5, 2]
      Samples.piGood).1 (by decide),
    (claim_C7_outputs_extracted_and_embedded Samples.eGood Samples.pOkNat true
      Samples.progA Samples.inpA 2 Samples.opts0 [5, 2] 0 [5, 2]
      Samples.piGood).2 (by decide)⟩

/-- C8 counterexample: input binding is not among the checks performed
between execution and proving in the `execute` pipeline: the declared public
inputs `[1000, 1001, 1002, 1003]` disagree with the decoded initial row's
user stack `[7, 7, 0, 0]`, every other invariant holds, and the run
nevertheless succeeds and produces a proof — so the validator cannot be
performing the claimed check sequence (1) length, (2) hash, (3) inputs,
(4) outputs. -/
theorem claim_C8_counterexample :
    (Distaff.TraceState.from_slice 0 0 4
        ((Samples.eGood Samples.progA Samples.inpBad).read_row 0)).user_stack ≠
      Samples.inpBad.public_inputs.map Distaff.as_int ∧
    Distaff.execute Samples.eGood Samples.pOkNat true Samples.progA
      Samples.inpBad 2 Samples.opts0 = Distaff.ExecResult.ok [5, 2] 0 := by decide

/-- C8 (amended): the checks are split across the two pipelines. In the
`execute` pipeline the validator runs after execution and before proving and
checks, in order and short-circuiting, (1) the final-row op-counter minimum
and (2) the program-hash binding (std builds); when both pass the proof
engine is invoked — input and output bindings are never checked there. The
input binding and then the output binding are checked, in that order and
short-circuiting, only by the prover crate's `get_pub_inputs` hook, only
under debug assertions, before the statement is built. -/
theorem claim_C8_check_order {E P : Type}
    (e : Distaff.Program → Distaff.ProgramInputs → Distaff.ExecutionTrace)
    (pf : Distaff.ExecutionTrace → Distaff.PublicInputs → Distaff.ProofOptions →
      Except E P)
    (std : Bool) (program : Distaff.Program) (inputs : Distaff.ProgramInputs)
    (k : Nat) (opts : Distaff.ProofOptions) (ls : Distaff.TraceState)
    (mp : MidenProver.ExecutionProver) (mt : MidenProver.ExecutionTrace)
    (hk : k ≤ Distaff.MAX_OUTPUTS)
    (hls : Distaff.get_last_state (e program inputs) = some ls)
    (hst : k ≤ ls.user_stack.length)
    (hby : (Distaff.to_bytes ls.program_hash).length = 32) :
    (Distaff.as_int ls.op_counter % 2 ^ 64 < Distaff.MIN_TRACE_LENGTH →
      Distaff.execute e pf std program inputs k opts =
        Distaff.ExecResult.panic .traceTooShort) ∧
    (Distaff.MIN_TRACE_LENGTH ≤ Distaff.as_int ls.op_counter % 2 ^ 64 →
      program.hash ≠ Distaff.to_bytes ls.program_hash →
      Distaff.execute e pf true program inputs k opts =
        Distaff.ExecResult.panic .programHashMismatch) ∧
    (Distaff.MIN_TRACE_LENGTH ≤ Distaff.as_int ls.op_counter % 2 ^ 64 →
      program.hash = Distaff.to_bytes ls.program_hash →
      Distaff.execute e pf true program inputs k opts =
        match pf (e program inputs)
            (Distaff.PublicInputs.new (Distaff.to_bytes ls.program_hash)
              (inputs.public_inputs.map Distaff.as_int)
              ((ls.user_stack.take k).map Distaff.as_int)) opts with
        | .error er => Distaff.ExecResult.err er
        | .ok proof =>
          Distaff.ExecResult.ok ((ls.user_stack.take k).map Distaff.as_int) proof) ∧
    (mp.are_inputs_valid mt = false →
      mp.get_pub_inputs true mt = .error .inputsMismatch) ∧
    (mp.are_inputs_valid mt = true → mp.are_outputs_valid mt = false →
      mp.get_pub_inputs true mt = .error .outputsMismatch) ∧
    (mp.are_inputs_valid mt = true → mp.are_outputs_valid mt = true →
      mp.get_pub_inputs true mt =
        .ok (MidenProver.PublicInputs.new mt.program_hash mp.stack_inputs
          mp.outputs)) := by
  refine ⟨?_, ?_, ?_, ?_, ?_, ?_⟩
  · intro hop
    exact Distaff.execute_eval_tooShort e pf std program inputs k opts ls
      (by omega) hls (by omega) hop
  · intro hop hm
    exact Distaff.execute_eval_hashMismatch e pf true program inputs k opts ls
      (by omega) hls (by omega) (by omega) (by simp [hby]) ⟨rfl, hm⟩
  · intro hop heq
    exact Distaff.execute_eval_main e pf true program inputs k opts ls
      (by omega) hls (by omega) (by omega) (by simp [hby])
      (fun hcon => hcon.2 heq)
  · intro h
    exact MidenProver.get_pub_inputs_eval_inputs mp mt h
  · intro hin hout
    exact MidenProver.get_pub_inputs_eval_outputs mp mt hin hout
  · intro hin hout
    exact MidenProver.get_pub_inputs_eval_valid true mp mt hin hout

/-- C8 witness: the op-counter check fires first on a low-op trace, the hash
check fires next on a mismatched program, and under debug assertions the
input-binding check fires inside `get_pub_inputs`. -/
theorem claim_C8_witness :
    Distaff.execute Samples.eLowOp Samples.pOkNat true Samples.progA Samples.inpA
      2 Samples.opts0 = Distaff.ExecResult.panic .traceTooShort ∧
    Distaff.execute Samples.eGood Samples.pOkNat true Samples.progB Samples.inpA
      2 Samples.opts0 = Distaff.ExecResult.panic .programHashMismatch ∧
    MidenProver.ExecutionProver.get_pub_inputs true
      ⟨Samples.mopts, Samples.siBad, ⟨[5, 2]⟩⟩ Samples.mt1 =
      Except.error .inputsMismatch :=
  ⟨(claim_C8_check_order Samples.eLowOp Samples.pOkNat true Samples.progA
      Samples.inpA 2 Samples.opts0
      (Distaff.TraceState.from_slice 0 0 4 Samples.rowLowOp)
      ⟨Samples.mopts, Samples.siBad, ⟨[5, 2]⟩⟩ Samples.mt1
      (by decide) (by decide) (by decide) (by decide)).1 (by decide),
    (claim_C8_check_order Samples.eGood Samples.pOkNat true Samples.progB
      Samples.inpA 2 Samples.opts0
      (Distaff.TraceState.from_slice 0 0 4 Samples.rowF)
      ⟨Samples.mopts, Samples.siBad, ⟨[5, 2]⟩⟩ Samples.mt1
      (by decide) (by decide) (by decide) (by decide)).2.1
      (by decide) (by decide),
    (claim_C8_check_order Samples.eGood Samples.pOkNat true Samples.progA
      Samples.inpA 2 Samples.opts0
      (Distaff.TraceState.from_slice 0 0 4 Samples.rowF)
      ⟨Samples.mopts, Samples.siBad, ⟨[5, 2]⟩⟩ Samples.mt1
      (by decide) (by decide) (by decide) (by decide)).2.2.2.1 (by decide)⟩

